import Mathlib

/-!
# Verification of the `internal_proxy` reverse proxy

Shallow embedding of `src/internal_proxy.py`: a single-endpoint Flask
reverse proxy that validates a `{start_datetime, end_datetime}` query,
selects a tiered outbound timeout from the query span, forwards the
validated pair to a fixed internal backend, and normalizes the reply.

JSON values are modelled by the inductive `Json`; Python exceptions that
the handler distinguishes (`ValueError`, `TypeError`, `KeyError`) by
`PyExc`; the result of Flask's `request.get_json()` by `GetJsonResult`
(`parseError` models the `BadRequest` exception that `get_json` raises on
an unparseable body, which the handler's outer `except Exception` catches).
The outcome of the single `requests.post` call is the environment input
`BackendOutcome`. The handler returns a `RunResult` recording the list of
outbound calls actually issued together with the HTTP response.
-/

/-- A JSON value, as produced by Python's `json` parsing: non-integral
numbers are kept as exact rationals (every IEEE double is rational, and all
concrete inputs considered here are exactly representable). -/
inductive Json where
  | null : Json
  | bool (b : Bool) : Json
  | int (n : Int) : Json
  | float (q : Rat) : Json
  | str (s : String) : Json
  | arr (elems : List Json) : Json
  | obj (fields : List (String × Json)) : Json

/-- Python truthiness (`bool(x)`) of a parsed JSON value, as tested by
`if not data:` in the handler. -/
def Json.truthy : Json → Bool
  | .null => false
  | .bool b => b
  | .int n => n != 0
  | .float q => q != 0
  | .str s => s != ""
  | .arr xs => !xs.isEmpty
  | .obj kvs => !kvs.isEmpty

/-- Python exceptions the handler distinguishes: `ValueError` and
`TypeError` are caught by the `try` around the `int(...)` conversions
(lines 66-70); `KeyError` is only caught by the outer `except Exception`. -/
inductive PyExc where
  | valueError : PyExc
  | typeError : PyExc
  | keyError : PyExc
deriving DecidableEq

/-- The ASCII whitespace characters stripped by Python's `int(str)`. -/
def isPySpace (c : Char) : Bool :=
  c == ' ' || c == '\t' || c == '\n' || c == '\r' || c == '\x0b' || c == '\x0c'

/-- After the first digit: Python integer literals allow single underscores
only between two digits. -/
def pyDigitRunAux : List Char → Bool
  | [] => true
  | '_' :: rest =>
    match rest with
    | c :: rest2 => c.isDigit && pyDigitRunAux rest2
    | [] => false
  | c :: rest => c.isDigit && pyDigitRunAux rest

/-- A non-empty digit run, with single underscores allowed between digits. -/
def pyDigitRun : List Char → Bool
  | [] => false
  | c :: rest => c.isDigit && pyDigitRunAux rest

/-- Numeric value of a digit run, skipping underscore separators. -/
def digitsVal (cs : List Char) : Nat :=
  cs.foldl (fun acc c => if c == '_' then acc else acc * 10 + (c.toNat - 48)) 0

/-- Python's `int(s)` on a string: strip surrounding whitespace, allow one
leading sign, then a digit run. Returns `none` where Python raises
`ValueError`. -/
def pyStrToInt (s : String) : Option Int :=
  let stripped := ((s.toList.dropWhile isPySpace).reverse.dropWhile isPySpace).reverse
  match stripped with
  | '+' :: rest => if pyDigitRun rest then some (digitsVal rest) else none
  | '-' :: rest => if pyDigitRun rest then some (-(digitsVal rest : Int)) else none
  | rest => if pyDigitRun rest then some (digitsVal rest) else none

/-- Python's `int(x)` on a parsed JSON value: ints pass through, booleans
map to 0/1, floats truncate toward zero, strings go through `pyStrToInt`
(`ValueError` on failure), and `None`/lists/dicts raise `TypeError`. -/
def pyIntOfJson : Json → Except PyExc Int
  | .null => .error .typeError
  | .bool b => .ok (if b then 1 else 0)
  | .int n => .ok n
  | .float q => .ok (if 0 ≤ q then q.floor else q.ceil)
  | .str s =>
    match pyStrToInt s with
    | some n => .ok n
    | none => .error .valueError
  | .arr _ => .error .typeError
  | .obj _ => .error .typeError

/-- Whether `needle` occurs as a contiguous run inside `hay` (Python's
substring `in` on strings). -/
def substrOccurs (needle : List Char) : List Char → Bool
  | [] => needle.isEmpty
  | c :: rest => needle.isPrefixOf (c :: rest) || substrOccurs needle rest

/-- Python's `k not in data` on a parsed JSON value (line 62): key lookup on
dicts, element equality on lists, substring test on strings, and `TypeError`
on the remaining (non-container) values. -/
def pyNotIn (d : Json) (k : String) : Except PyExc Bool :=
  match d with
  | .obj kvs => .ok (!(kvs.any (fun kv => kv.1 == k)))
  | .arr xs => .ok (!(xs.any (fun x => match x with | .str t => t == k | _ => false)))
  | .str t => .ok (!(substrOccurs k.toList t.toList))
  | _ => .error .typeError

/-- Python's `data[k]` with a string key: value lookup on dicts (`KeyError`
when absent), `TypeError` on every other JSON value. -/
def pySubscript (d : Json) (k : String) : Except PyExc Json :=
  match d with
  | .obj kvs =>
    match kvs.find? (fun kv => kv.1 == k) with
    | some kv => .ok kv.2
    | none => .error .keyError
  | _ => .error .typeError

/-- The POST branch's `try` block (lines 66-70): `int(data['start_datetime'])`
then `int(data['end_datetime'])`; the first exception raised propagates. -/
def pyIntPair (data : Json) : Except PyExc (Int × Int) := do
  let sv ← pySubscript data "start_datetime"
  let s ← pyIntOfJson sv
  let ev ← pySubscript data "end_datetime"
  let e ← pyIntOfJson ev
  pure (s, e)

/-- Lines 85-95: `time_range_hours = (end_datetime - start_datetime) / 3600`
and the tier ladder. Python's true division of ints is modelled exactly in
ℚ; at every tier boundary the quotient 24, 72, 168, 336 corresponds to an
exactly representable double, so the ℚ comparisons agree with the float
comparisons for all integer inputs. -/
def selectTimeout (start_datetime end_datetime : Int) : Nat :=
  let time_range_hours : Rat := Rat.divInt (end_datetime - start_datetime) 3600
  if time_range_hours ≤ 24 then 15
  else if time_range_hours ≤ 72 then 45
  else if time_range_hours ≤ 168 then 90
  else if time_range_hours ≤ 336 then 120
  else 180

/-- HTTP methods the `proxy_api` route accepts (OPTIONS is short-circuited
by a separate route before reaching the handler). -/
inductive Method where
  | get : Method
  | post : Method
deriving DecidableEq

/-- The observable result of `request.get_json()` on the POST branch
(line 56): `noBody` models the `None` return when no JSON body is present,
`parsed v` a successfully parsed body, and `parseError` the `BadRequest`
exception that Flask raises on an unparseable body (default `silent=False`),
which only the handler's outer `except Exception` catches. -/
inductive GetJsonResult where
  | noBody : GetJsonResult
  | parsed (v : Json) : GetJsonResult
  | parseError : GetJsonResult

/-- Outcome of the single `requests.post` call (line 97): `timeout` is a
`requests.Timeout`, `connectionError` any other `requests.RequestException`,
and `reply st b` a response with status `st` whose `response.json()` result
is `b` (`none` when that parse raises `ValueError`). -/
inductive BackendOutcome where
  | timeout : BackendOutcome
  | connectionError : BackendOutcome
  | reply (status : Nat) (jsonBody : Option Json) : BackendOutcome

/-- An inbound request: on GET only `queryParams` is consulted, on POST only
`body`. -/
structure Request where
  method : Method
  queryParams : List (String × String)
  body : GetJsonResult

/-- One outbound `requests.post(url, json=payload, timeout=t)` call. -/
structure OutboundCall where
  url : String
  payload : Json
  timeout : Nat

/-- What one run of the handler produces: the list of outbound calls it
issued, and the HTTP status and JSON body returned to the caller. -/
structure RunResult where
  sent : List OutboundCall
  status : Nat
  respBody : Json

/-- Line 34: the fixed internal backend address. -/
def internal_api_url : String :=
  "http://10.157.85.11/api/huacore.forms/documentapi/getvalue"

/-- `jsonify({'error': msg})`. -/
def errBody (msg : String) : Json := .obj [("error", .str msg)]

/-- Line 44 / line 63 error text. -/
def missingParamsMsg : String :=
  "Missing required parameters: start_datetime and end_datetime"

/-- Line 51 / line 70 error text. -/
def invalidParamsMsg : String :=
  "Invalid parameters: start_datetime and end_datetime must be integers"

/-- Line 60 error text. -/
def missingBodyMsg : String := "Missing request body"

/-- Line 74 error text. -/
def invalidRangeMsg : String :=
  "Invalid time range: start_datetime must be less than or equal to end_datetime"

/-- Line 106 error text. -/
def malformedBackendMsg : String := "Invalid response from internal API"

/-- Line 110 error text. -/
def timeoutMsg : String := "Request timed out. Please try a smaller time range."

/-- Line 112 error text. -/
def unreachableMsg : String := "Failed to connect to internal API"

/-- Line 115 error text. -/
def internalErrorMsg : String := "Internal server error"

/-- `request.args.get(k)`: the first value for the key, else `None`. -/
def argsGet (qs : List (String × String)) (k : String) : Option String :=
  (qs.find? (fun kv => kv.1 == k)).map (fun kv => kv.2)

/-- Lines 77-112: build `cleaned_data` from the validated pair only, select
the timeout, issue the single outbound call, and normalize the backend
reply (wrap non-dict JSON as `{'data': ...}`, preserve the status; a body
that `response.json()` cannot parse yields a 500). -/
def forwardAndNormalize (start_datetime end_datetime : Int)
    (backend : BackendOutcome) : RunResult :=
  let cleaned_data : Json :=
    .obj [("start_datetime", .int start_datetime),
          ("end_datetime", .int end_datetime)]
  let timeout := selectTimeout start_datetime end_datetime
  let call : OutboundCall := ⟨internal_api_url, cleaned_data, timeout⟩
  match backend with
  | .timeout => ⟨[call], 408, errBody timeoutMsg⟩
  | .connectionError => ⟨[call], 503, errBody unreachableMsg⟩
  | .reply _ none => ⟨[call], 500, errBody malformedBackendMsg⟩
  | .reply st (some v) =>
    match v with
    | .obj kvs => ⟨[call], st, .obj kvs⟩
    | v' => ⟨[call], st, .obj [("data", v')]⟩

/-- Lines 73-74 followed by the forwarding block: reject `start > end`
before any outbound call, otherwise forward. -/
def checkRangeAndForward (start_datetime end_datetime : Int)
    (backend : BackendOutcome) : RunResult :=
  if start_datetime > end_datetime then ⟨[], 400, errBody invalidRangeMsg⟩
  else forwardAndNormalize start_datetime end_datetime backend

/-- The request handler `proxy_api` (lines 30-115), as a function of the
inbound request and of the backend's behaviour for the one outbound call.
Exceptions that reach the outer `try` (line 32) produce the 500 of
line 115. -/
def proxy_api (req : Request) (backend : BackendOutcome) : RunResult :=
  match req.method with
  | .get =>
    match argsGet req.queryParams "start_datetime",
          argsGet req.queryParams "end_datetime" with
    | some ss, some es =>
      if ss == "" || es == "" then ⟨[], 400, errBody missingParamsMsg⟩
      else
        match pyStrToInt ss, pyStrToInt es with
        | some s, some e => checkRangeAndForward s e backend
        | _, _ => ⟨[], 400, errBody invalidParamsMsg⟩
    | _, _ => ⟨[], 400, errBody missingParamsMsg⟩
  | .post =>
    match req.body with
    | .parseError => ⟨[], 500, errBody internalErrorMsg⟩
    | .noBody => ⟨[], 400, errBody missingBodyMsg⟩
    | .parsed data =>
      if !data.truthy then ⟨[], 400, errBody missingBodyMsg⟩
      else
        match pyNotIn data "start_datetime" with
        | .error _ => ⟨[], 500, errBody internalErrorMsg⟩
        | .ok true => ⟨[], 400, errBody missingParamsMsg⟩
        | .ok false =>
          match pyNotIn data "end_datetime" with
          | .error _ => ⟨[], 500, errBody internalErrorMsg⟩
          | .ok true => ⟨[], 400, errBody missingParamsMsg⟩
          | .ok false =>
            match pyIntPair data with
            | .ok (s, e) => checkRangeAndForward s e backend
            | .error .valueError => ⟨[], 400, errBody invalidParamsMsg⟩
            | .error .typeError => ⟨[], 400, errBody invalidParamsMsg⟩
            | .error .keyError => ⟨[], 500, errBody internalErrorMsg⟩

/-- Two successive runs of the handler on the same request with the same
fixed backend behaviour; the handler is a pure function of its two inputs,
so no state can carry over from the first run to the second. -/
def runTwice (req : Request) (backend : BackendOutcome) :
    RunResult × RunResult :=
  (proxy_api req backend, proxy_api req backend)

/-- The integer pair the validation stage (lines 37-70) accepts for a
request, when it accepts one: the `int()` conversions of the transport's
own `start_datetime`/`end_datetime` values, mirroring the gates of
`proxy_api` ahead of the range check. -/
def validatedPair (req : Request) : Option (Int × Int) :=
  match req.method with
  | .get =>
    match argsGet req.queryParams "start_datetime",
          argsGet req.queryParams "end_datetime" with
    | some ss, some es =>
      if ss == "" || es == "" then none
      else
        match pyStrToInt ss, pyStrToInt es with
        | some s, some e => some (s, e)
        | _, _ => none
    | _, _ => none
  | .post =>
    match req.body with
    | .parseError => none
    | .noBody => none
    | .parsed data =>
      if !data.truthy then none
      else
        match pyNotIn data "start_datetime" with
        | .ok false =>
          match pyNotIn data "end_datetime" with
          | .ok false =>
            match pyIntPair data with
            | .ok (s, e) => some (s, e)
            | .error _ => none
          | _ => none
        | _ => none

example : pyStrToInt "123" = some 123 := by decide
example : pyStrToInt "+5" = some 5 := by decide
example : pyStrToInt " 42 " = some 42 := by decide
example : pyStrToInt "1_000" = some 1000 := by decide
example : pyStrToInt "1234567890xyz" = none := by decide
example : pyStrToInt "1__0" = none := by decide
example : pyStrToInt "" = none := by decide
example : selectTimeout 1000 (1000 + 30 * 3600) = 45 := by decide

theorem span_le_24h (n : Int) : (Rat.divInt n 3600 ≤ 24) ↔ n ≤ 86400 := by
  rw [Rat.divInt_eq_div]
  push_cast
  rw [div_le_iff₀ (by norm_num : (0:ℚ) < 3600)]
  norm_cast

theorem span_le_72h (n : Int) : (Rat.divInt n 3600 ≤ 72) ↔ n ≤ 259200 := by
  rw [Rat.divInt_eq_div]
  push_cast
  rw [div_le_iff₀ (by norm_num : (0:ℚ) < 3600)]
  norm_cast

theorem span_le_168h (n : Int) : (Rat.divInt n 3600 ≤ 168) ↔ n ≤ 604800 := by
  rw [Rat.divInt_eq_div]
  push_cast
  rw [div_le_iff₀ (by norm_num : (0:ℚ) < 3600)]
  norm_cast

theorem span_le_336h (n : Int) : (Rat.divInt n 3600 ≤ 336) ↔ n ≤ 1209600 := by
  rw [Rat.divInt_eq_div]
  push_cast
  rw [div_le_iff₀ (by norm_num : (0:ℚ) < 3600)]
  norm_cast

/-- The rational tier ladder of `selectTimeout`, re-expressed over the span
in seconds. -/
theorem selectTimeout_eq_tiers (s e : Int) :
    selectTimeout s e =
      if e - s ≤ 86400 then 15
      else if e - s ≤ 259200 then 45
      else if e - s ≤ 604800 then 90
      else if e - s ≤ 1209600 then 120
      else 180 := by
  simp only [selectTimeout, span_le_24h, span_le_72h, span_le_168h, span_le_336h]

/-- C1: for every query with `start ≤ end` the outbound timeout follows the
fixed tier table on the span in hours, `≤24h→15s`, `≤72h→45s`, `≤168h→90s`,
`≤336h→120s`, `>336h→180s`; in particular a 30-hour span selects 45
seconds. -/
theorem timeout_tier_table (s e : Int) (h : s ≤ e) :
    (e - s ≤ 24 * 3600 → selectTimeout s e = 15) ∧
    (24 * 3600 < e - s → e - s ≤ 72 * 3600 → selectTimeout s e = 45) ∧
    (72 * 3600 < e - s → e - s ≤ 168 * 3600 → selectTimeout s e = 90) ∧
    (168 * 3600 < e - s → e - s ≤ 336 * 3600 → selectTimeout s e = 120) ∧
    (336 * 3600 < e - s → selectTimeout s e = 180) ∧
    selectTimeout 1000 (1000 + 30 * 3600) = 45 := by
  rw [selectTimeout_eq_tiers]
  refine ⟨fun h1 => ?_, fun h1 h2 => ?_, fun h1 h2 => ?_, fun h1 h2 => ?_,
    fun h1 => ?_, by decide⟩
  · rw [if_pos (by omega)]
  · rw [if_neg (by omega), if_pos (by omega)]
  · rw [if_neg (by omega), if_neg (by omega), if_pos (by omega)]
  · rw [if_neg (by omega), if_neg (by omega), if_neg (by omega), if_pos (by omega)]
  · rw [if_neg (by omega), if_neg (by omega), if_neg (by omega), if_neg (by omega)]

theorem timeout_tier_table_witness :
    (1000 : Int) ≤ 1000 + 30 * 3600 ∧ selectTimeout 1000 (1000 + 30 * 3600) = 45 :=
  ⟨by decide, (timeout_tier_table 1000 (1000 + 30 * 3600) (by decide)).2.2.2.2.2⟩

/-- Every branch of the forwarding block issues exactly the one call built
from the validated pair. -/
theorem forwardAndNormalize_sent (s e : Int) (b : BackendOutcome) :
    (forwardAndNormalize s e b).sent =
      [⟨internal_api_url,
        Json.obj [("start_datetime", Json.int s), ("end_datetime", Json.int e)],
        selectTimeout s e⟩] := by
  cases b with
  | timeout => rfl
  | connectionError => rfl
  | reply st jb =>
    cases jb with
    | none => rfl
    | some v => cases v <;> rfl

/-- If the range check stage issued any call, the range was valid and the
run continued into the forwarding block. -/
theorem checkRangeAndForward_forwarded (s e : Int) (b : BackendOutcome)
    (h : (checkRangeAndForward s e b).sent.isEmpty = false) :
    s ≤ e ∧ checkRangeAndForward s e b = forwardAndNormalize s e b := by
  by_cases hgt : s > e
  · rw [checkRangeAndForward, if_pos hgt] at h
    simp at h
  · exact ⟨by omega, by rw [checkRangeAndForward, if_neg hgt]⟩

/-- Every run of the handler either short-circuits with an error response
and no outbound call, or reaches the range-check/forwarding stage on
exactly the pair its validation stage accepted. -/
theorem proxy_api_cases (req : Request) (backend : BackendOutcome) :
    (∃ st msg, proxy_api req backend = ⟨[], st, errBody msg⟩) ∨
    (∃ s e, validatedPair req = some (s, e) ∧
      proxy_api req backend = checkRangeAndForward s e backend) := by
  obtain ⟨m, qs, body⟩ := req
  cases m <;> simp only [proxy_api, validatedPair]
  case get =>
    cases hs : argsGet qs "start_datetime" with
    | none => exact Or.inl ⟨400, missingParamsMsg, rfl⟩
    | some ss =>
      cases he : argsGet qs "end_datetime" with
      | none => exact Or.inl ⟨400, missingParamsMsg, rfl⟩
      | some es =>
        by_cases hempty : (ss == "" || es == "") = true
        · simp only [if_pos hempty]
          exact Or.inl ⟨400, missingParamsMsg, rfl⟩
        · simp only [if_neg hempty]
          cases hcs : pyStrToInt ss with
          | none => exact Or.inl ⟨400, invalidParamsMsg, rfl⟩
          | some s =>
            cases hce : pyStrToInt es with
            | none => exact Or.inl ⟨400, invalidParamsMsg, rfl⟩
            | some e => exact Or.inr ⟨s, e, rfl, rfl⟩
  case post =>
    cases body with
    | parseError => exact Or.inl ⟨500, internalErrorMsg, rfl⟩
    | noBody => exact Or.inl ⟨400, missingBodyMsg, rfl⟩
    | parsed data =>
      by_cases ht : (!data.truthy) = true
      · simp only [if_pos ht]
        exact Or.inl ⟨400, missingBodyMsg, rfl⟩
      · simp only [if_neg ht]
        cases hn1 : pyNotIn data "start_datetime" with
        | error exc => exact Or.inl ⟨500, internalErrorMsg, rfl⟩
        | ok b1 =>
          cases b1 with
          | true => exact Or.inl ⟨400, missingParamsMsg, rfl⟩
          | false =>
            cases hn2 : pyNotIn data "end_datetime" with
            | error exc => exact Or.inl ⟨500, internalErrorMsg, rfl⟩
            | ok b2 =>
              cases b2 with
              | true => exact Or.inl ⟨400, missingParamsMsg, rfl⟩
              | false =>
                cases hp : pyIntPair data with
                | ok pr =>
                  obtain ⟨s, e⟩ := pr
                  exact Or.inr ⟨s, e, rfl, rfl⟩
                | error exc =>
                  cases exc with
                  | valueError => exact Or.inl ⟨400, invalidParamsMsg, rfl⟩
                  | typeError => exact Or.inl ⟨400, invalidParamsMsg, rfl⟩
                  | keyError => exact Or.inl ⟨500, internalErrorMsg, rfl⟩

/-- C2: whenever the handler issues an outbound call, it issues exactly one,
to the fixed backend address, and its body is exactly the two-field object
rebuilt from the integers the validation stage accepted for this very
request (`validatedPair`) — any extraneous keys of the caller's payload are
dropped. -/
theorem outbound_payload_exact (req : Request) (backend : BackendOutcome)
    (hc : (proxy_api req backend).sent.isEmpty = false) :
    ∃ s e : Int, validatedPair req = some (s, e) ∧ s ≤ e ∧
      (proxy_api req backend).sent =
        [⟨internal_api_url,
          Json.obj [("start_datetime", Json.int s), ("end_datetime", Json.int e)],
          selectTimeout s e⟩] := by
  rcases proxy_api_cases req backend with ⟨st, msg, hE⟩ | ⟨s, e, hvp, hF⟩
  · rw [hE] at hc
    simp at hc
  · rw [hF] at hc ⊢
    obtain ⟨hle, heq⟩ := checkRangeAndForward_forwarded s e backend hc
    exact ⟨s, e, hvp, hle, by rw [heq, forwardAndNormalize_sent]⟩

theorem outbound_payload_exact_witness :
    (validatedPair
        ⟨.post, [],
         .parsed (Json.obj
           [("start_datetime", Json.int 1000),
            ("end_datetime", Json.int 2000),
            ("sql", Json.str "' OR '1'='1")])⟩ = some (1000, 2000)) ∧
    ((proxy_api
        ⟨.post, [],
         .parsed (Json.obj
           [("start_datetime", Json.int 1000),
            ("end_datetime", Json.int 2000),
            ("sql", Json.str "' OR '1'='1")])⟩
        (.reply 200 (some (Json.obj [("rows", Json.arr [])])))).sent.isEmpty = false) ∧
    (∃ s e : Int,
      validatedPair
        ⟨.post, [],
         .parsed (Json.obj
           [("start_datetime", Json.int 1000),
            ("end_datetime", Json.int 2000),
            ("sql", Json.str "' OR '1'='1")])⟩ = some (s, e) ∧
      s ≤ e ∧
      (proxy_api
        ⟨.post, [],
         .parsed (Json.obj
           [("start_datetime", Json.int 1000),
            ("end_datetime", Json.int 2000),
            ("sql", Json.str "' OR '1'='1")])⟩
        (.reply 200 (some (Json.obj [("rows", Json.arr [])])))).sent =
        [⟨internal_api_url,
          Json.obj [("start_datetime", Json.int s), ("end_datetime", Json.int e)],
          selectTimeout s e⟩]) :=
  ⟨rfl, rfl, outbound_payload_exact _ _ rfl⟩

/-- C3 counterexample: the empty JSON object `{}` on POST is falsy for
`if not data:`, so the handler answers with the MissingBody error, not the
MissingParameter one the claim requires. -/
theorem empty_object_gets_missing_body :
    (proxy_api ⟨.post, [], .parsed (Json.obj [])⟩
        (.reply 200 (some (Json.obj [])))).status = 400 ∧
    (proxy_api ⟨.post, [], .parsed (Json.obj [])⟩
        (.reply 200 (some (Json.obj [])))).respBody = errBody missingBodyMsg ∧
    (proxy_api ⟨.post, [], .parsed (Json.obj [])⟩
        (.reply 200 (some (Json.obj [])))).respBody ≠ errBody missingParamsMsg := by
  refine ⟨rfl, rfl, ?_⟩
  show errBody missingBodyMsg ≠ errBody missingParamsMsg
  simp [errBody, missingBodyMsg, missingParamsMsg]

/-- C3 amended: on POST, a body parsing to a non-empty JSON object that
lacks `start_datetime` or `end_datetime` yields 400 MissingParameter; the
empty object `{}` is falsy and instead yields 400 MissingBody; a key
present with a `null` value reaches `int(None)` and yields 400
InvalidParameterType; on GET an absent parameter yields 400
MissingParameter. -/
theorem missing_parameter_amended (kvs : List (String × Json))
    (backend : BackendOutcome) (hne : kvs ≠ [])
    (hmiss : kvs.any (fun kv => kv.1 == "start_datetime") = false
           ∨ kvs.any (fun kv => kv.1 == "end_datetime") = false) :
    proxy_api ⟨.post, [], .parsed (Json.obj kvs)⟩ backend =
      ⟨[], 400, errBody missingParamsMsg⟩ ∧
    proxy_api ⟨.post, [], .parsed (Json.obj [])⟩ backend =
      ⟨[], 400, errBody missingBodyMsg⟩ ∧
    (∀ v, proxy_api ⟨.post, [],
        .parsed (Json.obj [("start_datetime", Json.null), ("end_datetime", v)])⟩
        backend = ⟨[], 400, errBody invalidParamsMsg⟩) ∧
    proxy_api ⟨.get, [], .noBody⟩ backend = ⟨[], 400, errBody missingParamsMsg⟩ := by
  refine ⟨?_, rfl, fun v => rfl, rfl⟩
  cases kvs with
  | nil => exact absurd rfl hne
  | cons p rest =>
    rcases Bool.eq_false_or_eq_true
        ((p :: rest).any (fun kv => kv.1 == "start_datetime")) with hs | hs
    · have he : (p :: rest).any (fun kv => kv.1 == "end_datetime") = false := by
        rcases hmiss with h | h
        · rw [hs] at h; cases h
        · exact h
      simp [proxy_api, Json.truthy, pyNotIn, hs, he]
    · simp [proxy_api, Json.truthy, pyNotIn, hs]

theorem missing_parameter_amended_witness :
    ([("end_datetime", Json.int 5)] ≠ ([] : List (String × Json))) ∧
    ([("end_datetime", Json.int 5)].any
        (fun kv => kv.1 == "start_datetime") = false
      ∨ [("end_datetime", Json.int 5)].any
        (fun kv => kv.1 == "end_datetime") = false) ∧
    proxy_api ⟨.post, [], .parsed (Json.obj [("end_datetime", Json.int 5)])⟩
        (.reply 200 (some (Json.obj []))) =
      ⟨[], 400, errBody missingParamsMsg⟩ :=
  ⟨by simp, Or.inl (by decide),
   (missing_parameter_amended [("end_datetime", Json.int 5)]
     (.reply 200 (some (Json.obj []))) (by simp) (Or.inl (by decide))).1⟩

/-- `int(x)` raises only `ValueError` or `TypeError`, never `KeyError`. -/
theorem pyIntOfJson_ne_keyError (v : Json) :
    pyIntOfJson v ≠ .error .keyError := by
  cases v <;> simp [pyIntOfJson]
  case str s => split <;> simp

/-- On a two-field body with both keys present, the conversion stage is the
sequential `int()` of the two values. -/
theorem pyIntPair_two_fields (v1 v2 : Json) :
    pyIntPair (Json.obj [("start_datetime", v1), ("end_datetime", v2)]) =
      (pyIntOfJson v1).bind fun s =>
        (pyIntOfJson v2).bind fun e => pure (s, e) := rfl

/-- C4 counterexample: the non-integral JSON number 0.5 is not losslessly
convertible to an integer, yet validation accepts it — `int()` truncates it
to 0 and the pair is forwarded with a 200 pass-through, with no
InvalidParameterType error. -/
theorem float_truncated_not_rejected :
    proxy_api ⟨.post, [],
        .parsed (Json.obj [("start_datetime", Json.float (Rat.divInt 1 2)),
                           ("end_datetime", Json.int 1)])⟩
        (.reply 200 (some (Json.obj [("rows", Json.arr [])]))) =
      ⟨[⟨internal_api_url,
         Json.obj [("start_datetime", Json.int 0), ("end_datetime", Json.int 1)],
         15⟩],
       200, Json.obj [("rows", Json.arr [])]⟩ := rfl

/-- C4 amended: for a POST body carrying both keys with non-null values,
the 400 InvalidParameterType response occurs exactly when Python's `int()`
raises on one of the two values: numeric strings like "123" convert,
non-numeric strings and "1234567890xyz" raise `ValueError`, while
non-integral numbers are truncated (lossily) and accepted. -/
theorem invalid_parameter_type_amended (v1 v2 : Json) (backend : BackendOutcome)
    (h1 : v1 ≠ Json.null) (h2 : v2 ≠ Json.null) :
    (proxy_api ⟨.post, [],
        .parsed (Json.obj [("start_datetime", v1), ("end_datetime", v2)])⟩ backend
        = ⟨[], 400, errBody invalidParamsMsg⟩
      ↔ (∃ exc, pyIntOfJson v1 = .error exc) ∨ (∃ exc, pyIntOfJson v2 = .error exc)) ∧
    pyStrToInt "123" = some 123 ∧
    pyIntOfJson (Json.str "1234567890xyz") = .error .valueError ∧
    pyIntOfJson (Json.str "not_a_number") = .error .valueError ∧
    pyIntOfJson (Json.float (Rat.divInt 1 2)) = .ok 0 := by
  refine ⟨?_, by decide, rfl, rfl, rfl⟩
  have key : proxy_api ⟨.post, [],
      .parsed (Json.obj [("start_datetime", v1), ("end_datetime", v2)])⟩ backend =
      (match pyIntPair (Json.obj [("start_datetime", v1), ("end_datetime", v2)]) with
       | .ok (s, e) => checkRangeAndForward s e backend
       | .error .valueError => ⟨[], 400, errBody invalidParamsMsg⟩
       | .error .typeError => ⟨[], 400, errBody invalidParamsMsg⟩
       | .error .keyError => ⟨[], 500, errBody internalErrorMsg⟩) := rfl
  rw [key, pyIntPair_two_fields]
  cases hp1 : pyIntOfJson v1 with
  | error exc1 =>
    cases exc1 with
    | keyError => exact absurd hp1 (pyIntOfJson_ne_keyError v1)
    | valueError => simp [hp1, Except.bind]
    | typeError => simp [hp1, Except.bind]
  | ok s =>
    cases hp2 : pyIntOfJson v2 with
    | error exc2 =>
      cases exc2 with
      | keyError => exact absurd hp2 (pyIntOfJson_ne_keyError v2)
      | valueError => simp [Except.bind, hp2]
      | typeError => simp [Except.bind, hp2]
    | ok e =>
      change checkRangeAndForward s e backend = _ ↔ _
      constructor
      · intro hres
        exfalso
        unfold checkRangeAndForward at hres
        split at hres
        · have := congrArg RunResult.respBody hres
          simp [errBody, invalidRangeMsg, invalidParamsMsg] at this
        · have := congrArg RunResult.sent hres
          rw [forwardAndNormalize_sent] at this
          cases this
      · rintro (⟨exc, hexc⟩ | ⟨exc, hexc⟩) <;> cases hexc

theorem invalid_parameter_type_amended_witness :
    (Json.str "123" ≠ Json.null) ∧ (Json.str "1234567890xyz" ≠ Json.null) ∧
    (proxy_api ⟨.post, [],
        .parsed (Json.obj [("start_datetime", Json.str "123"),
                           ("end_datetime", Json.str "1234567890xyz")])⟩
        (.reply 200 (some (Json.obj [])))
        = ⟨[], 400, errBody invalidParamsMsg⟩
      ↔ (∃ exc, pyIntOfJson (Json.str "123") = .error exc)
        ∨ (∃ exc, pyIntOfJson (Json.str "1234567890xyz") = .error exc)) :=
  ⟨by simp, by simp,
   (invalid_parameter_type_amended (Json.str "123") (Json.str "1234567890xyz")
     (.reply 200 (some (Json.obj []))) (by simp) (by simp)).1⟩

/-- C5 counterexample: a POST body that fails JSON parsing does not produce
the 400 MissingBody response — the `get_json` exception reaches the
catch-all and the handler returns 500. -/
theorem unparseable_body_returns_500 :
    (proxy_api ⟨.post, [], .parseError⟩ (.reply 200 (some (Json.obj [])))).status
      = 500 ∧
    (proxy_api ⟨.post, [], .parseError⟩ (.reply 200 (some (Json.obj [])))).status
      ≠ 400 ∧
    (proxy_api ⟨.post, [], .parseError⟩ (.reply 200 (some (Json.obj [])))).respBody
      = errBody internalErrorMsg :=
  ⟨rfl, by decide, rfl⟩

/-- C5 amended: on POST, an absent body (a `None` from `get_json`) returns
400 MissingBody, while a body that cannot be parsed as JSON makes
`get_json` raise; the exception is caught by the handler's catch-all, which
returns 500 UnknownInternalError. -/
theorem missing_body_amended (qs : List (String × String))
    (backend : BackendOutcome) :
    proxy_api ⟨.post, qs, .noBody⟩ backend =
      ⟨[], 400, errBody missingBodyMsg⟩ ∧
    proxy_api ⟨.post, qs, .parseError⟩ backend =
      ⟨[], 500, errBody internalErrorMsg⟩ :=
  ⟨rfl, rfl⟩

/-- C6: whenever both values convert to integers with `start > end`, the
handler answers 400 InvalidTimeRange and issues no outbound call — on the
POST path and on the GET path alike. -/
theorem invalid_time_range_no_forward (v1 v2 : Json) (ss es : String)
    (s e : Int) (backend : BackendOutcome)
    (hv1 : pyIntOfJson v1 = .ok s) (hv2 : pyIntOfJson v2 = .ok e)
    (hs : pyStrToInt ss = some s) (he : pyStrToInt es = some e)
    (hgt : s > e) :
    proxy_api ⟨.post, [],
        .parsed (Json.obj [("start_datetime", v1), ("end_datetime", v2)])⟩ backend
      = ⟨[], 400, errBody invalidRangeMsg⟩ ∧
    proxy_api ⟨.get, [("start_datetime", ss), ("end_datetime", es)], .noBody⟩ backend
      = ⟨[], 400, errBody invalidRangeMsg⟩ := by
  have hss : (ss == "") = false := by
    rcases Bool.eq_false_or_eq_true (ss == "") with h | h
    · rw [eq_of_beq h] at hs
      cases hs
    · exact h
  have hes : (es == "") = false := by
    rcases Bool.eq_false_or_eq_true (es == "") with h | h
    · rw [eq_of_beq h] at he
      cases he
    · exact h
  constructor
  · have key : proxy_api ⟨.post, [],
        .parsed (Json.obj [("start_datetime", v1), ("end_datetime", v2)])⟩ backend =
        (match pyIntPair (Json.obj [("start_datetime", v1), ("end_datetime", v2)]) with
         | .ok (s, e) => checkRangeAndForward s e backend
         | .error .valueError => ⟨[], 400, errBody invalidParamsMsg⟩
         | .error .typeError => ⟨[], 400, errBody invalidParamsMsg⟩
         | .error .keyError => ⟨[], 500, errBody internalErrorMsg⟩) := rfl
    rw [key, pyIntPair_two_fields, hv1, hv2]
    show checkRangeAndForward s e backend = _
    rw [checkRangeAndForward, if_pos hgt]
  · simp only [proxy_api, argsGet, List.find?]
    simp only [show ("start_datetime" == "start_datetime") = true from rfl,
      show (("end_datetime" : String) == "start_datetime") = false from rfl,
      show (("start_datetime" : String) == "end_datetime") = false from rfl,
      show ("end_datetime" == "end_datetime") = true from rfl]
    simp only [Option.map, hss, hes, Bool.or_self, Bool.false_or, if_false]
    rw [hs, he]
    show checkRangeAndForward s e backend = _
    rw [checkRangeAndForward, if_pos hgt]

theorem invalid_time_range_no_forward_witness :
    pyIntOfJson (Json.int 2000) = .ok 2000 ∧
    pyIntOfJson (Json.int 1000) = .ok 1000 ∧
    pyStrToInt "2000" = some 2000 ∧ pyStrToInt "1000" = some 1000 ∧
    (2000 : Int) > 1000 ∧
    proxy_api ⟨.post, [],
        .parsed (Json.obj [("start_datetime", Json.int 2000),
                           ("end_datetime", Json.int 1000)])⟩
        (.reply 200 (some (Json.obj [])))
      = ⟨[], 400, errBody invalidRangeMsg⟩ :=
  ⟨rfl, rfl, by decide, by decide, by decide,
   (invalid_time_range_no_forward (Json.int 2000) (Json.int 1000) "2000" "1000"
     2000 1000 (.reply 200 (some (Json.obj []))) rfl rfl (by decide) (by decide)
     (by decide)).1⟩

/-- C7: normalization of the backend reply — an unparseable backend body
gives the 500 MalformedBackendResponse error; a parsed non-object value is
wrapped as `{"data": value}` with the backend's status preserved; a parsed
object passes through unchanged with the backend's status preserved. -/
theorem backend_response_normalization (s e : Int) (st : Nat) (v : Json)
    (kvs : List (String × Json)) (hv : ∀ l, v ≠ Json.obj l) :
    ((forwardAndNormalize s e (.reply st none)).status = 500 ∧
     (forwardAndNormalize s e (.reply st none)).respBody
       = errBody malformedBackendMsg) ∧
    ((forwardAndNormalize s e (.reply st (some v))).status = st ∧
     (forwardAndNormalize s e (.reply st (some v))).respBody
       = Json.obj [("data", v)]) ∧
    ((forwardAndNormalize s e (.reply st (some (Json.obj kvs)))).status = st ∧
     (forwardAndNormalize s e (.reply st (some (Json.obj kvs)))).respBody
       = Json.obj kvs) := by
  refine ⟨⟨rfl, rfl⟩, ?_, rfl, rfl⟩
  cases v with
  | obj l => exact absurd rfl (hv l)
  | null => exact ⟨rfl, rfl⟩
  | bool b => exact ⟨rfl, rfl⟩
  | int n => exact ⟨rfl, rfl⟩
  | float q => exact ⟨rfl, rfl⟩
  | str t => exact ⟨rfl, rfl⟩
  | arr xs => exact ⟨rfl, rfl⟩

theorem backend_response_normalization_witness :
    (∀ l, Json.arr [Json.int 1] ≠ Json.obj l) ∧
    ((forwardAndNormalize 0 10 (.reply 207 (some (Json.arr [Json.int 1])))).status
        = 207 ∧
     (forwardAndNormalize 0 10 (.reply 207 (some (Json.arr [Json.int 1])))).respBody
        = Json.obj [("data", Json.arr [Json.int 1])]) :=
  ⟨fun l h => Json.noConfusion h,
   (backend_response_normalization 0 10 207 (Json.arr [Json.int 1]) []
     (fun l h => Json.noConfusion h)).2.1⟩

/-- C8: a timed-out outbound call yields 408 with an error-message JSON
object, issued exactly once with no retry; a connection-level failure
yields 503 with an error-message JSON object. -/
theorem backend_failure_mapping (s e : Int) :
    forwardAndNormalize s e .timeout =
      ⟨[⟨internal_api_url,
         Json.obj [("start_datetime", Json.int s), ("end_datetime", Json.int e)],
         selectTimeout s e⟩],
       408, errBody timeoutMsg⟩ ∧
    (forwardAndNormalize s e .timeout).sent.length = 1 ∧
    forwardAndNormalize s e .connectionError =
      ⟨[⟨internal_api_url,
         Json.obj [("start_datetime", Json.int s), ("end_datetime", Json.int e)],
         selectTimeout s e⟩],
       503, errBody unreachableMsg⟩ ∧
    (forwardAndNormalize s e .connectionError).sent.length = 1 :=
  ⟨rfl, rfl, rfl, rfl⟩

/-- C9: the handler is stateless and deterministic — it is a pure function
of the request and the fixed backend behaviour, so two successive runs on
the same input produce identical responses, identical outbound call lists
(same derived timeout, same request shape), and the two runs together issue
exactly twice the calls of one run (two independent forwarded calls). -/
theorem handler_stateless_deterministic (req : Request)
    (backend : BackendOutcome) :
    (runTwice req backend).1 = (runTwice req backend).2 ∧
    (runTwice req backend).1.sent = (runTwice req backend).2.sent ∧
    ((runTwice req backend).1.sent ++ (runTwice req backend).2.sent).length
      = 2 * (proxy_api req backend).sent.length := by
  refine ⟨rfl, rfl, ?_⟩
  simp [runTwice, List.length_append, two_mul]

/-- C10: on the GET path anything Python's `int()` accepts passes
validation — "+5" (explicit sign), " 42 " (surrounding whitespace) and
"1_000" (underscore separator) all convert, and such parameters are
forwarded as their converted integer values instead of being rejected. -/
theorem get_accepts_python_int_syntax :
    pyStrToInt "+5" = some 5 ∧
    pyStrToInt " 42 " = some 42 ∧
    pyStrToInt "1_000" = some 1000 ∧
    proxy_api ⟨.get, [("start_datetime", "+5"), ("end_datetime", "1_000")], .noBody⟩
        (.reply 200 (some (Json.obj []))) =
      ⟨[⟨internal_api_url,
         Json.obj [("start_datetime", Json.int 5), ("end_datetime", Json.int 1000)],
         15⟩],
       200, Json.obj []⟩ :=
  ⟨by decide, by decide, by decide, rfl⟩
